import Mathlib

/-!
Verification of the `Synced<SaveableToml<T>>` container from
`src/synced_state_toml.rs` (tauri-plugin-synced-store).

The embedding is a sequential, trace-producing model of the container's
operations. Because the lock serializes every operation, each operation is a
pure function of the container state together with environment oracles for the
outcomes of the external effects (disk read at init, disk write at persist,
event broadcast at emit). Each operation additionally returns the list of
observable events it performs, in order; the lock acquisition and release are
recorded as events so that ordering claims of the form "while still holding
the lock" become statements about the trace.

`Synced` and `SaveableToml` themselves are declared in
`synced_state.rs` / `saveable_state.rs`, which are not part of the sources
given; their fields and the operations `load_path`, `new` and `save` are
modelled from the spec (sections 3 and 4.2) and marked as such.
-/

namespace SyncedStore

/-- Error taxonomy of the persistence layer, from spec section 7:
no file at the location, malformed persisted content, read/write failure,
serialization failure. -/
inductive Error : Type
  | notFound
  | decodeError
  | ioError
  | encodeError
deriving DecidableEq, Repr

/-- Rendering of an error for diagnostics (the Display impl behind the
`eprintln` interpolation in `init`). -/
def Error.render : Error → String
  | .notFound => "file not found"
  | .decodeError => "failed to decode TOML"
  | .ioError => "io error"
  | .encodeError => "failed to encode TOML"

/-- Observable events an operation performs, in order. Lock acquisition and
release are recorded so that "under one lock" is a statement about traces.
An `emit` records the channel name, the payload and the delivery outcome
supplied by the environment; a `persistAttempt` records the target location,
the value handed to the write routine and the write outcome supplied by the
environment; a `log` records a diagnostic line printed to stderr. -/
inductive Event (T : Type) : Type
  | lockAcquire
  | emit (name : String) (payload : T) (result : Except Error Unit)
  | persistAttempt (location : String) (payload : T) (result : Except Error Unit)
  | log (msg : String)
  | lockRelease

/-- Whether an event is a notification broadcast. -/
def Event.isEmit {T : Type} : Event T → Bool
  | .emit _ _ _ => true
  | _ => false

/-- Whether an event is a diagnostic log line. -/
def Event.isLog {T : Type} : Event T → Bool
  | .log _ => true
  | _ => false

/-- Whether an event is a persistence attempt. -/
def Event.isPersist {T : Type} : Event T → Bool
  | .persistAttempt _ _ _ => true
  | _ => false

/-- Modelled from the spec (section 3, `saveable_state.rs` is not among the
sources): the load/save unit `SaveableToml<T>` binds a current in-memory
payload `state` to a fixed file location. The field name `state` is the one
the adapter dereferences (`lock.state`). -/
structure SaveableToml (T : Type) : Type where
  path : String
  state : T

/-- Modelled from the spec (section 4.2): `SaveableToml::new` constructs a
value bound to the location holding `T::default()`, performing no I/O. -/
def SaveableToml.new {T : Type} [Inhabited T] (path : String) : SaveableToml T :=
  ⟨path, default⟩

/-- Modelled from the spec (section 4.2): `SaveableToml::load_path` reads the
file at the location and parses it, failing with a read or format error; on
success it wraps the parsed value bound to the location. The outcome of the
read-and-parse is the environment oracle `diskRead`. -/
def SaveableToml.load_path {T : Type} (path : String) (diskRead : Except Error T) :
    Except Error (SaveableToml T) :=
  Except.map (fun v => SaveableToml.mk path v) diskRead

/-- Modelled from the spec (section 4.2): `SaveableToml::save` serializes the
current value and writes it to its location (creating parent directories),
surfacing a write or encode error to the caller. The outcome of the write is
the environment oracle `outcome`; the recorded event carries exactly the
value and location handed to the write routine. -/
def SaveableToml.save {T : Type} (s : SaveableToml T) (outcome : Except Error Unit) :
    Except Error Unit × List (Event T) :=
  (outcome, [Event.persistAttempt s.path s.state outcome])

/-- The runtime handle, modelled at its interface boundary: the only service
`init` consumes from it is `path_resolver().app_config_dir()`, which in tauri
returns an `Option` — the source unwraps it with `expect`, so resolution
failure is a panic. The broadcast service is modelled by the emit outcome
oracles of the individual operations. -/
structure AppHandle : Type where
  appConfigDir : Option String
deriving DecidableEq, Repr

/-- `path.push(relative_path)` on the resolved config directory. -/
def pathJoin (dir rel : String) : String := dir ++ "/" ++ rel

/-- Modelled from the spec (section 3, `synced_state.rs` is not among the
sources): the container owns a key (identity), the lock-guarded
`SaveableToml` and the runtime handle. The mutex itself needs no explicit
representation in this sequential model; lock events appear in traces. -/
structure Synced (T : Type) : Type where
  key : String
  state : SaveableToml T
  handle : AppHandle

/-- `Synced::init` from `src/synced_state_toml.rs` lines 14-43: resolve the
app config directory (panicking — modelled as `none` — when the resolver
yields nothing), join the relative path, try `load_path` there, and on any
load failure print the diagnostic naming the key and the error and fall back
to a fresh default bound to the same location. Returns the container together
with its trace. -/
def Synced.init {T : Type} [Inhabited T] (key : String) (relativePath : String)
    (handle : AppHandle) (diskRead : Except Error T) :
    Option (Synced T × List (Event T)) :=
  match handle.appConfigDir with
  | none => none
  | some dir =>
    let path := pathJoin dir relativePath
    match SaveableToml.load_path path diskRead with
    | Except.ok st => some (⟨key, st, handle⟩, [])
    | Except.error e =>
      some (⟨key, SaveableToml.new path, handle⟩,
        [Event.log ("Failed to initialize '" ++ key ++ "' state: " ++ e.render)])

/-- The blocking bridge (`tokio::task::block_in_place` around
`tauri::async_runtime::block_on`), modelled at its interface boundary: it
drives the asynchronous computation to completion on the current thread and
yields its result. In this sequential model a completed asynchronous
computation is its result. -/
def blockOnBridge {A : Type} (comp : Unit → A) : A := comp ()

/-- `Synced::init_sync` from lines 45-53: the blocking bridge applied to
`init`. -/
def Synced.init_sync {T : Type} [Inhabited T] (key : String) (relativePath : String)
    (handle : AppHandle) (diskRead : Except Error T) :
    Option (Synced T × List (Event T)) :=
  blockOnBridge (fun _ => Synced.init key relativePath handle diskRead)

/-- `Synced::emit_update` from lines 55-63: format the channel name from the
key, broadcast the payload on it, and discard the delivery outcome with
`.ok()`. Returns only the trace — no result reaches the caller. -/
def Synced.emit_update {T : Type} (syn : Synced T) (payload : T)
    (emitOutcome : Except Error Unit) : List (Event T) :=
  let event := "synced-state://" ++ syn.key ++ "-update"
  [Event.emit event payload emitOutcome]

/-- `Synced::mutate` from lines 65-76: take the lock, apply `function` to the
live value in place, emit the update with a clone of the new value, attempt
`lock.save()` discarding its outcome with `.ok()`, release the lock. -/
def Synced.mutate {T : Type} (syn : Synced T) (function : T → T)
    (persistOutcome : Except Error Unit) (emitOutcome : Except Error Unit) :
    Synced T × List (Event T) :=
  let state := function syn.state.state
  let lock : SaveableToml T := { syn.state with state := state }
  let emitEvents := Synced.emit_update syn state emitOutcome
  let saveResult := SaveableToml.save lock persistOutcome
  ({ syn with state := lock },
    Event.lockAcquire :: (emitEvents ++ saveResult.2 ++ [Event.lockRelease]))

/-- `Synced::save` from lines 78-84: take the lock, call `SaveableToml::save`
on the current value, and return its result to the caller unchanged. -/
def Synced.save {T : Type} (syn : Synced T) (persistOutcome : Except Error Unit) :
    Except Error Unit × Synced T × List (Event T) :=
  let saved := SaveableToml.save syn.state persistOutcome
  (saved.1, syn, Event.lockAcquire :: (saved.2 ++ [Event.lockRelease]))

/-- `Synced::save_sync` from lines 86-90: the blocking bridge applied to
`save`. -/
def Synced.save_sync {T : Type} (syn : Synced T) (persistOutcome : Except Error Unit) :
    Except Error Unit × Synced T × List (Event T) :=
  blockOnBridge (fun _ => Synced.save syn persistOutcome)

/-- `Synced::get` from lines 92-95: take the lock and return a clone of the
current value. -/
def Synced.get {T : Type} (syn : Synced T) : T :=
  syn.state.state

/-- `Synced::set` from lines 97-101: `mutate` with the transform that
unconditionally replaces the value by a clone of the argument. -/
def Synced.set {T : Type} (syn : Synced T) (newValue : T)
    (persistOutcome : Except Error Unit) (emitOutcome : Except Error Unit) :
    Synced T × List (Event T) :=
  Synced.mutate syn (fun _ => newValue) persistOutcome emitOutcome

/-- `Synced::lock` from lines 103-105: hand the caller the guarded
`SaveableToml` itself. -/
def Synced.lock {T : Type} (syn : Synced T) : SaveableToml T :=
  syn.state

/-- `Synced::reset` from lines 107-109: `set` with `T::default()`. -/
def Synced.reset {T : Type} [Inhabited T] (syn : Synced T)
    (persistOutcome : Except Error Unit) (emitOutcome : Except Error Unit) :
    Synced T × List (Event T) :=
  Synced.set syn default persistOutcome emitOutcome

/-- A whole sequence of `mutate` calls in order, each with its own effect
outcomes; the lock serializes them, so the sequential fold is the model. -/
def Synced.mutateSeq {T : Type} (syn : Synced T) :
    List ((T → T) × Except Error Unit × Except Error Unit) → Synced T
  | [] => syn
  | step :: rest =>
    Synced.mutateSeq (Synced.mutate syn step.1 step.2.1 step.2.2).1 rest

end SyncedStore

/-! ## Theorems -/

namespace SyncedStore

/-- C1: `mutate` applies the transform to the live value in place and, still
holding the lock, first emits the notification carrying the post-transform
value and then attempts to persist that same value, releasing the lock only
afterward; the notification payload is exactly the value in memory after the
call (mutate, then notify, then persist, under one lock). -/
theorem mutate_notify_then_persist_under_lock {T : Type} (syn : Synced T)
    (f : T → T) (po eo : Except Error Unit) :
    (Synced.mutate syn f po eo).1.state.state = f syn.state.state ∧
    (Synced.mutate syn f po eo).2 =
      [Event.lockAcquire,
       Event.emit ("synced-state://" ++ syn.key ++ "-update") (f syn.state.state) eo,
       Event.persistAttempt syn.state.path (f syn.state.state) po,
       Event.lockRelease] ∧
    Synced.get (Synced.mutate syn f po eo).1 = f syn.state.state :=
  ⟨rfl, rfl, rfl⟩

/-- C2 counterexample: with a runtime handle whose app config directory does
not resolve, `init` panics on the `expect` (modelled as `none`) instead of
returning a usable container, so the claim's "for every runtime handle,
init never fails" is false at this input. -/
theorem init_panics_without_config_dir :
    Synced.init (T := Nat) "settings" "settings.toml"
      (AppHandle.mk none) (Except.ok 0) = none :=
  rfl

/-- C2 amended: provided the runtime handle resolves an app config directory,
`init` always returns a usable container: on a successful load it holds the
loaded value bound to the resolved location, and on any load failure it logs
one diagnostic containing the identity and the rendered error and falls back
to a fresh default bound to the same resolved location. -/
theorem init_fallback_on_load_failure {T : Type} [Inhabited T]
    (key rel dir : String) (e : Error) (v : T) :
    Synced.init key rel (AppHandle.mk (some dir)) (Except.ok v) =
      some (Synced.mk key (SaveableToml.mk (pathJoin dir rel) v)
        (AppHandle.mk (some dir)), []) ∧
    Synced.init key rel (AppHandle.mk (some dir)) (Except.error e) =
      some (Synced.mk key (SaveableToml.mk (pathJoin dir rel) (default : T))
        (AppHandle.mk (some dir)),
        [Event.log ("Failed to initialize '" ++ key ++ "' state: " ++ e.render)]) ∧
    (∃ a b, "Failed to initialize '" ++ key ++ "' state: " ++ e.render =
      a ++ key ++ b) ∧
    (∃ a, "Failed to initialize '" ++ key ++ "' state: " ++ e.render =
      a ++ e.render) := by
  refine ⟨rfl, rfl,
    ⟨"Failed to initialize '", "' state: " ++ e.render, ?_⟩,
    ⟨"Failed to initialize '" ++ key ++ "' state: ", rfl⟩⟩
  rw [String.append_assoc]

/-- C3 counterexample: at a concrete instance whose implicit persist fails
with an I/O error, the trace of `mutate` contains no log event at all — the
failure is discarded but not logged, contrary to the claim's "logged and
discarded". -/
theorem mutate_persist_failure_not_logged :
    List.countP Event.isLog
      (Synced.mutate
        (Synced.mk "settings" (SaveableToml.mk "cfg/settings.toml" (0 : Nat))
          (AppHandle.mk (some "cfg")))
        (fun n => n + 1) (Except.error Error.ioError) (Except.ok ())).2 = 0 :=
  rfl

/-- C3 amended: a failure of the implicit persist attempt inside `mutate` is
silently discarded (no log event): it does not roll back the in-memory
mutation, does not prevent the notification — which is emitted before the
persist attempt — and does not reach the caller: the resulting container is
identical to the one a successful persist produces, and `mutate` returns no
error at all. -/
theorem mutate_swallows_persist_failure {T : Type} (syn : Synced T) (f : T → T)
    (e : Error) (eo : Except Error Unit) :
    (Synced.mutate syn f (Except.error e) eo).1 =
      (Synced.mutate syn f (Except.ok ()) eo).1 ∧
    Synced.get (Synced.mutate syn f (Except.error e) eo).1 = f (Synced.get syn) ∧
    (Synced.mutate syn f (Except.error e) eo).2 =
      [Event.lockAcquire,
       Event.emit ("synced-state://" ++ syn.key ++ "-update") (f syn.state.state) eo,
       Event.persistAttempt syn.state.path (f syn.state.state) (Except.error e),
       Event.lockRelease] ∧
    List.countP Event.isLog (Synced.mutate syn f (Except.error e) eo).2 = 0 :=
  ⟨rfl, rfl, rfl, rfl⟩

/-- C4: explicit `save` takes the lock, makes exactly one persist attempt —
no retry — carrying the current value at its bound location, and surfaces
the write outcome, success or error, to the caller unchanged. -/
theorem save_surfaces_errors {T : Type} (syn : Synced T) (o : Except Error Unit) :
    (Synced.save syn o).1 = o ∧
    (Synced.save syn o).2.2 =
      [Event.lockAcquire,
       Event.persistAttempt syn.state.path syn.state.state o,
       Event.lockRelease] ∧
    List.countP Event.isPersist (Synced.save syn o).2.2 = 1 :=
  ⟨rfl, rfl, rfl⟩

/-- C5: for every finite sequence of `mutate` calls applied in order on one
instance, the value `get` then returns is the composition of all the
transforms, in call order, applied to the initial value. -/
theorem mutateSeq_composes {T : Type} (syn : Synced T)
    (steps : List ((T → T) × Except Error Unit × Except Error Unit)) :
    Synced.get (Synced.mutateSeq syn steps) =
      steps.foldl (fun v step => step.1 v) (Synced.get syn) := by
  induction steps generalizing syn with
  | nil => rfl
  | cons step rest ih =>
    have h := ih (Synced.mutate syn step.1 step.2.1 step.2.2).1
    simpa [Synced.mutateSeq, List.foldl, Synced.mutate, Synced.get] using h

/-- C6: every notification is broadcast on the channel named exactly
`synced-state://` followed by the key followed by `-update`, the payload of
the notification inside `mutate` is the post-mutation value, and a delivery
failure never affects the mutation: the resulting container is the same for
any delivery outcome. -/
theorem emit_channel_name_and_fire_and_forget {T : Type} (syn : Synced T)
    (payload : T) (f : T → T) (po : Except Error Unit) (e : Error)
    (eo : Except Error Unit) :
    Synced.emit_update syn payload eo =
      [Event.emit ("synced-state://" ++ syn.key ++ "-update") payload eo] ∧
    Event.emit ("synced-state://" ++ syn.key ++ "-update") (f syn.state.state) eo
      ∈ (Synced.mutate syn f po eo).2 ∧
    (Synced.mutate syn f po (Except.error e)).1 =
      (Synced.mutate syn f po (Except.ok ())).1 := by
  refine ⟨rfl, ?_, rfl⟩
  simp [Synced.mutate, Synced.emit_update, SaveableToml.save]

/-- C7: `reset` is exactly `set` of `T::default()`, `set v` followed by `get`
returns `v` (the value is unconditionally replaced), and `reset` followed by
`get` returns `T::default()`. -/
theorem reset_is_set_default {T : Type} [Inhabited T] (syn : Synced T) (v : T)
    (po eo : Except Error Unit) :
    Synced.reset syn po eo = Synced.set syn (default : T) po eo ∧
    Synced.get (Synced.set syn v po eo).1 = v ∧
    Synced.get (Synced.reset syn po eo).1 = (default : T) :=
  ⟨rfl, rfl, rfl⟩

/-- C8: the synchronous variants `init_sync` and `save_sync` produce exactly
the same result — same constructed container, same success-or-error outcome,
same trace — as the asynchronous `init` and `save`, being the blocking
bridge driving the asynchronous path to completion. -/
theorem sync_variants_agree {T : Type} [Inhabited T] (key rel : String)
    (handle : AppHandle) (diskRead : Except Error T) (syn : Synced T)
    (o : Except Error Unit) :
    Synced.init_sync key rel handle diskRead =
      Synced.init key rel handle diskRead ∧
    Synced.save_sync syn o = Synced.save syn o :=
  ⟨rfl, rfl⟩

/-- C9: every `mutate` emits exactly one notification, with no change
detection: in particular the identity transform still produces the full
trace, whose notification payload equals the value held before the call. -/
theorem mutate_always_emits_once {T : Type} (syn : Synced T) (f : T → T)
    (po eo : Except Error Unit) :
    List.countP Event.isEmit (Synced.mutate syn f po eo).2 = 1 ∧
    (Synced.mutate syn (fun v => v) po eo).2 =
      [Event.lockAcquire,
       Event.emit ("synced-state://" ++ syn.key ++ "-update") syn.state.state eo,
       Event.persistAttempt syn.state.path syn.state.state po,
       Event.lockRelease] :=
  ⟨rfl, rfl⟩

/-- C10: `save` and `save_sync` leave the in-memory value unchanged whether
the persist succeeds or fails, and emit no notification; `get` and `lock`
return data without touching the container either, so among the operations
only `mutate`, `set` and `reset` change the value or notify observers. -/
theorem save_frame {T : Type} (syn : Synced T) (o : Except Error Unit) :
    (Synced.save syn o).2.1 = syn ∧
    List.countP Event.isEmit (Synced.save syn o).2.2 = 0 ∧
    (Synced.save_sync syn o).2.1 = syn ∧
    List.countP Event.isEmit (Synced.save_sync syn o).2.2 = 0 ∧
    Synced.get syn = syn.state.state ∧
    Synced.lock syn = syn.state :=
  ⟨rfl, rfl, rfl, rfl, rfl, rfl⟩

end SyncedStore
